import Mathlib

/-!
Verification of the AFK-watcher core (src/sd_watcher_afk/afk.py and
src/sd_watcher_afk/macos.py).

Timestamps, durations and idle times are modelled as rationals measured in
seconds.  A heartbeat sent to the event store is modelled by the record
SentHeartbeat, holding the payload built in AFKWatcher.ping together with the
pulsetime and queued flag passed to the client.  One iteration of the body of
AFKWatcher.heartbeat_loop is the function cycleStep; a run of the loop over a
finite list of probe readings is runCycles.
-/

/-- Settings stored by Settings.init in afk.py (lines 37 and 38): the AFK
timeout and the polling interval, both in seconds. -/
structure Settings where
  timeout : ℚ
  poll_time : ℚ
deriving DecidableEq

/-- Payload and transmission parameters of one call to
self.client.heartbeat made by AFKWatcher.ping (afk.py lines 58 to 69):
the event data dict (status, app, title), the event timestamp and duration,
and the pulsetime and queued arguments. -/
structure SentHeartbeat where
  status : String
  app : String
  title : String
  timestamp : ℚ
  duration : ℚ
  pulsetime : ℚ
  queued : Bool
deriving DecidableEq

/-- The status string of the event data in ping, afk.py line 66:
"afk" if afk else "not-afk". -/
def statusStr (afk : Bool) : String := if afk then "afk" else "not-afk"

/-- In afk.py line 58 the duration parameter of ping has default value 0,
and heartbeat_loop always calls ping without passing a duration. -/
def pingDefaultDuration : ℚ := 0

/-- AFKWatcher.ping, afk.py lines 58 to 69: builds the event data, the Event,
computes pulsetime as timeout plus poll_time and sends with queued set. -/
def ping (s : Settings) (afk : Bool) (timestamp : ℚ) (duration : ℚ) : SentHeartbeat :=
  { status := statusStr afk
    app := "afk"
    title := "Idle time"
    timestamp := timestamp
    duration := duration
    pulsetime := s.timeout + s.poll_time
    queued := true }

/-- td1ms in afk.py line 25: timedelta of one millisecond, in seconds. -/
def td1ms : ℚ := 1 / 1000

/-- One iteration of the body of AFKWatcher.heartbeat_loop, afk.py lines 101
to 124: given the current afk flag, the current instant now and the probed
idle seconds, returns the afk flag after the iteration and the list of
heartbeats sent during it, in emission order. -/
def cycleStep (s : Settings) (afk : Bool) (now idle_seconds : ℚ) :
    Bool × List SentHeartbeat :=
  let last_input := now - idle_seconds
  if afk ∧ idle_seconds < s.timeout then
    (false, [ping s false last_input pingDefaultDuration,
             ping s false (last_input + td1ms) pingDefaultDuration])
  else if ¬afk ∧ idle_seconds ≥ s.timeout then
    (true, [ping s true last_input pingDefaultDuration,
            ping s true now pingDefaultDuration])
  else
    (afk, [if afk then ping s true now pingDefaultDuration
           else ping s false last_input pingDefaultDuration])

/-- A run of the heartbeat loop from a given afk flag over a finite list of
cycles, each cycle being a pair of the instant now and the probed idle
seconds; returns the final afk flag and all heartbeats sent, in order. -/
def runCycles (s : Settings) : Bool → List (ℚ × ℚ) → Bool × List SentHeartbeat
  | afk, [] => (afk, [])
  | afk, c :: cs =>
    let step := cycleStep s afk c.1 c.2
    let rest := runCycles s step.1 cs
    (rest.1, step.2 ++ rest.2)

/-- The afk flag set at afk.py line 92, before the first iteration of the
while loop of heartbeat_loop. -/
def initial_afk : Bool := false

/-- AFKWatcher.heartbeat_loop, afk.py lines 88 to 126, over a finite list of
probe readings: starts with the afk flag of line 92 and runs the cycles. -/
def heartbeat_loop (s : Settings) (cycles : List (ℚ × ℚ)) :
    Bool × List SentHeartbeat :=
  runCycles s initial_afk cycles

/-- The expression timeout or config_section of afk.py lines 37 and 38:
Python takes the config value when the explicit argument is absent (None) or
falsy, which for a number means equal to zero. -/
def effectiveSetting (config_value : ℚ) (arg : Option ℚ) : ℚ :=
  match arg with
  | none => config_value
  | some v => if v = 0 then config_value else v

/-- Settings.init, afk.py lines 29 to 40: resolves timeout and poll_time
against the config section, then asserts timeout greater or equal poll_time;
none models the AssertionError raised when the assert fails. -/
def settingsInit (config_timeout config_poll_time : ℚ)
    (timeout poll_time : Option ℚ) : Option Settings :=
  let t := effectiveSetting config_timeout timeout
  let p := effectiveSetting config_poll_time poll_time
  if t ≥ p then some ⟨t, p⟩ else none

/-- seconds_since_last_input in src/sd_watcher_afk/macos.py: returns the
value of the platform call, or the sentinel minus one when the platform call
raises (modelled by none). -/
def seconds_since_last_input (platform_call : Option ℚ) : ℚ :=
  match platform_call with
  | some v => v
  | none => -1

/-- The single heartbeat sent by a steady-state cycle: at now when afk, at
last_input when not afk (afk.py lines 119 to 124). -/
def steadyHb (s : Settings) (afk : Bool) (c : ℚ × ℚ) : SentHeartbeat :=
  if afk then ping s true c.1 pingDefaultDuration
  else ping s false (c.1 - c.2) pingDefaultDuration

theorem cycleStep_steady (s : Settings) (afk : Bool) (now idle : ℚ)
    (h : if afk then idle ≥ s.timeout else idle < s.timeout) :
    cycleStep s afk now idle = (afk, [steadyHb s afk (now, idle)]) := by
  cases afk with
  | false =>
    simp only [if_neg Bool.false_ne_true] at h
    simp [cycleStep, steadyHb, not_le.2 h]
  | true =>
    simp only [if_pos rfl] at h
    simp [cycleStep, steadyHb, not_lt.2 h]

theorem runCycles_steady (s : Settings) (afk : Bool) (cs : List (ℚ × ℚ))
    (h : ∀ c ∈ cs, if afk then c.2 ≥ s.timeout else c.2 < s.timeout) :
    runCycles s afk cs = (afk, cs.map (steadyHb s afk)) := by
  induction cs with
  | nil => rfl
  | cons c cs ih =>
    have hc := h c (List.mem_cons_self c cs)
    have hcs := fun q hq => h q (List.mem_cons_of_mem c hq)
    simp only [runCycles, cycleStep_steady s afk c.1 c.2 hc, ih hcs]
    simp

/-- Claim C1 (amended): in the Active state with probed idle_seconds at least
the timeout, the cycle emits exactly two heartbeats, both with status afk
(Idle), the first timestamped last_input equal to now minus idle_seconds and
the second timestamped now; the second timestamp is strictly later than the
first whenever idle_seconds is positive, and the state after the cycle is
Idle. -/
theorem C1_active_to_idle (s : Settings) (now idle : ℚ)
    (h : idle ≥ s.timeout) :
    cycleStep s false now idle =
      (true, [ping s true (now - idle) pingDefaultDuration,
              ping s true now pingDefaultDuration]) ∧
    (0 < idle → now - idle < now) := by
  constructor
  · simp [cycleStep, not_lt.2 h, h]
  · intro h0
    linarith

/-- Witness for C1_active_to_idle at timeout 60, poll_time 5, now 100,
idle_seconds 60. -/
theorem C1_active_to_idle_witness :
    cycleStep ⟨60, 5⟩ false 100 60 =
      (true, [ping ⟨60, 5⟩ true (100 - 60) pingDefaultDuration,
              ping ⟨60, 5⟩ true 100 pingDefaultDuration]) ∧
    (100 : ℚ) - 60 < 100 :=
  ⟨(C1_active_to_idle ⟨60, 5⟩ 100 60 (by norm_num)).1,
   (C1_active_to_idle ⟨60, 5⟩ 100 60 (by norm_num)).2 (by norm_num)⟩

/-- Counterexample to claim C1 as stated: with timeout 0 and poll_time 0,
which Settings.init accepts, an Active cycle with idle_seconds 0 takes the
became-AFK branch and both heartbeats carry the same timestamp, so the
second is not later than the first. -/
theorem C1_counterexample :
    settingsInit 0 0 none none = some ⟨0, 0⟩ ∧
    cycleStep ⟨0, 0⟩ false 0 0 =
      (true, [ping ⟨0, 0⟩ true 0 pingDefaultDuration,
              ping ⟨0, 0⟩ true 0 pingDefaultDuration]) ∧
    ¬ (ping ⟨0, 0⟩ true 0 pingDefaultDuration).timestamp <
        (ping ⟨0, 0⟩ true 0 pingDefaultDuration).timestamp := by
  refine ⟨by norm_num [settingsInit, effectiveSetting], ?_, lt_irrefl _⟩
  norm_num [cycleStep]

/-- Claim C2: in the Idle state with probed idle_seconds below the timeout,
the cycle emits exactly two heartbeats, both with status not-afk (Active),
the first timestamped last_input equal to now minus idle_seconds, the second
timestamped last_input plus one millisecond, and the state after the cycle
is Active. -/
theorem C2_idle_to_active (s : Settings) (now idle : ℚ)
    (h : idle < s.timeout) :
    cycleStep s true now idle =
      (false, [ping s false (now - idle) pingDefaultDuration,
               ping s false (now - idle + td1ms) pingDefaultDuration]) ∧
    now - idle + td1ms = (now - idle) + 1 / 1000 := by
  constructor
  · simp [cycleStep, h]
  · norm_num [td1ms]

/-- Witness for C2_idle_to_active at timeout 60, poll_time 5, now 100,
idle_seconds 2. -/
theorem C2_idle_to_active_witness :
    cycleStep ⟨60, 5⟩ true 100 2 =
      (false, [ping ⟨60, 5⟩ false (100 - 2) pingDefaultDuration,
               ping ⟨60, 5⟩ false (100 - 2 + td1ms) pingDefaultDuration]) ∧
    (100 : ℚ) - 2 + td1ms = (100 - 2) + 1 / 1000 :=
  C2_idle_to_active ⟨60, 5⟩ 100 2 (by norm_num)

/-- Claim C3: the macOS probe catches a platform failure and returns the
sentinel minus one instead of raising; heartbeat_loop never checks for a
negative value, so the cycle computes last_input one second in the future of
now, emits one not-afk heartbeat, keeps the Active state, and the loop
continues with the next cycle instead of terminating. -/
theorem C3_sentinel_emits_heartbeat :
    seconds_since_last_input none = -1 ∧
    cycleStep ⟨180, 5⟩ false 1000 (seconds_since_last_input none) =
      (false, [ping ⟨180, 5⟩ false 1001 pingDefaultDuration]) ∧
    (runCycles ⟨180, 5⟩ false
        [(1000, seconds_since_last_input none), (1005, 0)]).2.length = 2 := by
  refine ⟨rfl, ?_, ?_⟩
  · norm_num [cycleStep, seconds_since_last_input]
  · norm_num [runCycles, cycleStep, seconds_since_last_input]

/-- Claim C5: in a cycle with no transition, exactly one heartbeat is
emitted reaffirming the current state: status not-afk (Active) timestamped
at last_input equal to now minus idle_seconds when the state is Active, and
status afk (Idle) timestamped at now when the state is Idle; the state is
unchanged. -/
theorem C5_no_transition (s : Settings) (now idle : ℚ) :
    (idle < s.timeout →
      cycleStep s false now idle =
        (false, [ping s false (now - idle) pingDefaultDuration])) ∧
    (idle ≥ s.timeout →
      cycleStep s true now idle =
        (true, [ping s true now pingDefaultDuration])) := by
  constructor
  · intro h
    simp [cycleStep, not_le.2 h]
  · intro h
    simp [cycleStep, not_lt.2 h]

/-- Witness for C5_no_transition at timeout 60, poll_time 5, now 100, with
idle_seconds 3 in the Active state and 70 in the Idle state. -/
theorem C5_no_transition_witness :
    cycleStep ⟨60, 5⟩ false 100 3 =
      (false, [ping ⟨60, 5⟩ false (100 - 3) pingDefaultDuration]) ∧
    cycleStep ⟨60, 5⟩ true 100 70 =
      (true, [ping ⟨60, 5⟩ true 100 pingDefaultDuration]) :=
  ⟨(C5_no_transition ⟨60, 5⟩ 100 3).1 (by norm_num),
   (C5_no_transition ⟨60, 5⟩ 100 70).2 (by norm_num)⟩

/-- Claim C6: every heartbeat emitted in any cycle, on any branch, carries
pulsetime equal to timeout plus poll_time and duration equal to the default
value 0 of the duration parameter of ping. -/
theorem C6_pulsetime_and_duration (s : Settings) (afk : Bool) (now idle : ℚ) :
    ∀ hb ∈ (cycleStep s afk now idle).2,
      hb.pulsetime = s.timeout + s.poll_time ∧ hb.duration = 0 := by
  intro hb hhb
  unfold cycleStep at hhb
  split_ifs at hhb <;>
    simp_all [ping, pingDefaultDuration] <;>
    rcases hhb with rfl | rfl <;> simp [ping, pingDefaultDuration]

/-- Witness for C6_pulsetime_and_duration: the steady Active heartbeat at
timeout 60, poll_time 5 carries pulsetime 65 and duration 0. -/
theorem C6_pulsetime_and_duration_witness :
    (ping ⟨60, 5⟩ false (100 - 3) pingDefaultDuration).pulsetime = 60 + 5 ∧
    (ping ⟨60, 5⟩ false (100 - 3) pingDefaultDuration).duration = 0 :=
  C6_pulsetime_and_duration ⟨60, 5⟩ false 100 3
    (ping ⟨60, 5⟩ false (100 - 3) pingDefaultDuration)
    (by norm_num [cycleStep])

/-- Claim C7 (amended): on every state transition, in either direction, both
emitted heartbeats carry the status of the NEW state, the first timestamped
at the computed last_input instant and the second opening the next span; the
state after the cycle is the negation of the old one. -/
theorem C7_transition_heartbeats (s : Settings) (afk : Bool) (now idle : ℚ)
    (htrans : if afk then idle < s.timeout else idle ≥ s.timeout) :
    (cycleStep s afk now idle).1 = !afk ∧
    (cycleStep s afk now idle).2.map SentHeartbeat.status =
      [statusStr (!afk), statusStr (!afk)] ∧
    (cycleStep s afk now idle).2.map SentHeartbeat.timestamp =
      [now - idle, if afk then now - idle + td1ms else now] := by
  cases afk with
  | false =>
    simp at htrans
    simp [cycleStep, ping, not_lt.2 htrans, htrans]
  | true =>
    simp at htrans
    simp [cycleStep, ping, htrans]

/-- Witness for C7_transition_heartbeats at the Idle to Active transition
with timeout 60, poll_time 5, now 100, idle_seconds 2. -/
theorem C7_transition_heartbeats_witness :
    (cycleStep ⟨60, 5⟩ true 100 2).1 = !true ∧
    (cycleStep ⟨60, 5⟩ true 100 2).2.map SentHeartbeat.status =
      [statusStr (!true), statusStr (!true)] ∧
    (cycleStep ⟨60, 5⟩ true 100 2).2.map SentHeartbeat.timestamp =
      [100 - 2, if true then 100 - 2 + td1ms else 100] :=
  C7_transition_heartbeats ⟨60, 5⟩ true 100 2 (by norm_num)

/-- Counterexample to claim C7 as stated: at the Idle to Active transition
the old state has status afk, but both emitted heartbeats carry status
not-afk, so the first heartbeat does not carry the old status. -/
theorem C7_counterexample :
    statusStr true = "afk" ∧
    (cycleStep ⟨60, 5⟩ true 100 2).2.map SentHeartbeat.status =
      ["not-afk", "not-afk"] ∧
    ("not-afk" : String) ≠ "afk" := by
  refine ⟨rfl, ?_, by decide⟩
  norm_num [cycleStep, ping, statusStr]

/-- Claim C4: every successfully constructed Settings satisfies timeout
greater or equal poll_time, and a construction whose resolved timeout is
below its resolved poll_time fails with an AssertionError (modelled by
none) before the loop begins; this holds for all inputs to the
constructor. -/
theorem C4_settings_invariant (ct cp : ℚ) (t p : Option ℚ) :
    (∀ s : Settings, settingsInit ct cp t p = some s →
      s.poll_time ≤ s.timeout) ∧
    (effectiveSetting ct t < effectiveSetting cp p →
      settingsInit ct cp t p = none) := by
  constructor
  · intro s hs
    simp only [settingsInit] at hs
    split_ifs at hs with h
    · simp only [Option.some.injEq] at hs
      subst hs
      exact h
  · intro h
    simp only [settingsInit]
    rw [if_neg (not_le.2 h)]

/-- Witness for C4_settings_invariant: with config timeout 10 and poll_time
5 the constructed Settings satisfies the invariant, and with config timeout
5 and poll_time 10 construction fails. -/
theorem C4_settings_invariant_witness :
    (Settings.mk 10 5).poll_time ≤ (Settings.mk 10 5).timeout ∧
    settingsInit 5 10 none none = none :=
  ⟨(C4_settings_invariant 10 5 none none).1 ⟨10, 5⟩
      (by norm_num [settingsInit, effectiveSetting]),
   (C4_settings_invariant 5 10 none none).2
      (by norm_num [effectiveSetting])⟩

/-- Claim C8: N consecutive cycles, N at least one, whose idle or active
classification is unchanged emit exactly N heartbeats, all of the same
status as the unchanged state, with timestamps monotonically non-decreasing,
under the hypotheses that now is non-decreasing between consecutive cycles
and that idle_seconds grows by at most the elapsed wall-clock time. -/
theorem C8_steady_state_idempotence (s : Settings) (afk0 : Bool)
    (cs : List (ℚ × ℚ)) (hne : cs ≠ [])
    (hclass : ∀ c ∈ cs, if afk0 then c.2 ≥ s.timeout else c.2 < s.timeout)
    (hmono : List.Chain'
      (fun c d : ℚ × ℚ => c.1 ≤ d.1 ∧ d.2 - c.2 ≤ d.1 - c.1) cs) :
    (runCycles s afk0 cs).2.length = cs.length ∧
    (∀ hb ∈ (runCycles s afk0 cs).2, hb.status = statusStr afk0) ∧
    List.Chain' (fun a b : SentHeartbeat => a.timestamp ≤ b.timestamp)
      (runCycles s afk0 cs).2 := by
  rw [runCycles_steady s afk0 cs hclass]
  refine ⟨by simp, ?_, ?_⟩
  · intro hb hhb
    rcases List.mem_map.1 hhb with ⟨c, hc, rfl⟩
    cases afk0 <;> simp [steadyHb, ping]
  · rw [List.chain'_map]
    refine hmono.imp ?_
    intro c d hcd
    cases afk0 <;> simp [steadyHb, ping] <;> linarith [hcd.1, hcd.2]

/-- Witness for C8_steady_state_idempotence: two Active steady cycles with
timeout 60 and poll_time 5, instants 0 and 5, idle readings 0 and 3. -/
theorem C8_steady_state_idempotence_witness :
    (runCycles ⟨60, 5⟩ false [(0, 0), (5, 3)]).2.length =
      ([(0, 0), (5, 3)] : List (ℚ × ℚ)).length ∧
    (∀ hb ∈ (runCycles ⟨60, 5⟩ false [(0, 0), (5, 3)]).2,
      hb.status = statusStr false) ∧
    List.Chain' (fun a b : SentHeartbeat => a.timestamp ≤ b.timestamp)
      (runCycles ⟨60, 5⟩ false [(0, 0), (5, 3)]).2 :=
  C8_steady_state_idempotence ⟨60, 5⟩ false [(0, 0), (5, 3)]
    (by simp)
    (by intro c hc
        fin_cases hc <;> norm_num)
    (by simp [List.chain'_cons]
        norm_num)

/-- Claim C9: the afk flag is set to false (Active) at afk.py line 92 before
the first cycle of every run, no prior state being consulted, so a first
cycle whose idle_seconds is below the timeout emits the single steady
Active heartbeat rather than a transition pair. -/
theorem C9_starts_active :
    initial_afk = false ∧
    ∀ (s : Settings) (now idle : ℚ) (rest : List (ℚ × ℚ)),
      idle < s.timeout →
      (heartbeat_loop s ((now, idle) :: rest)).2.take 1 =
        [ping s false (now - idle) pingDefaultDuration] := by
  refine ⟨rfl, ?_⟩
  intro s now idle rest h
  have hstep : cycleStep s false now idle =
      (false, [ping s false (now - idle) pingDefaultDuration]) :=
    (C5_no_transition s now idle).1 h
  simp [heartbeat_loop, initial_afk, runCycles, hstep]

/-- Witness for C9_starts_active: a fresh run with timeout 60, poll_time 5
whose first probe reading is 0 opens with the steady Active heartbeat. -/
theorem C9_starts_active_witness :
    (heartbeat_loop ⟨60, 5⟩ [(0, 0)]).2.take 1 =
      [ping ⟨60, 5⟩ false (0 - 0) pingDefaultDuration] :=
  C9_starts_active.2 ⟨60, 5⟩ 0 0 [] (by norm_num)

/-- Claim C10: an explicit timeout or poll_time argument equal to 0, the
only falsy number, is not used as the setting: the truthiness test of the
expression timeout or config_section at afk.py lines 37 and 38 silently
replaces it with the config value, so the timeout stored by a successful
construction with explicit argument 0 is the config value. -/
theorem C10_falsy_zero_override (ct cp : ℚ) (p : Option ℚ) :
    effectiveSetting ct (some 0) = ct ∧
    effectiveSetting cp (some 0) = cp ∧
    ∀ s : Settings, settingsInit ct cp (some 0) p = some s →
      s.timeout = ct := by
  refine ⟨by simp [effectiveSetting], by simp [effectiveSetting], ?_⟩
  intro s hs
  simp only [settingsInit] at hs
  split_ifs at hs with h
  · simp only [Option.some.injEq] at hs
    subst hs
    simp [effectiveSetting]

/-- Witness for C10_falsy_zero_override: with config timeout 10 and
poll_time 5, constructing with explicit timeout 0 and poll_time 0 yields
timeout 10, the config value, not 0. -/
theorem C10_falsy_zero_override_witness :
    effectiveSetting 10 (some 0) = 10 ∧
    (Settings.mk 10 5).timeout = 10 :=
  ⟨(C10_falsy_zero_override 10 5 (some 0)).1,
   (C10_falsy_zero_override 10 5 (some 0)).2.2 ⟨10, 5⟩
     (by norm_num [settingsInit, effectiveSetting])⟩
